import Mathlib

/-!
Verification of the criu-coordinator hook and session-state code.

The Rust sources embedded here are `src/main.rs` (hook driver, configuration
loading, container-id discovery, dependency lookup, per-checkpoint config
writer) and `src/server/client_status.rs` (per-client session state).
Machine strings are modelled as Lean `String`/`List Char`; fallible Rust code
(`Result`, panics, `process::exit`) is modelled with `Except`/`Option` and an
explicit outcome type.  Parts of the repository that are referenced but whose
source is not available (the constants module, the CLI defaults, the server's
disconnect handling and barrier engine) are modelled from the specification
and marked as such in their doc comments.
-/

/-! ## Phase vocabulary (constants module)

Modelled from the spec: `src/constants.rs` is not available; §3.3 of the
specification fixes the closed set of phase names. -/

/-- Modelled from the spec: phase name `pre-dump` (§3.3). -/
def ACTION_PRE_DUMP : String := "pre-dump"

/-- Modelled from the spec: phase name `post-dump` (§3.3). -/
def ACTION_POST_DUMP : String := "post-dump"

/-- Modelled from the spec: phase name `pre-stream` (§3.3). -/
def ACTION_PRE_STREAM : String := "pre-stream"

/-- Modelled from the spec: phase name `network-lock` (§3.3). -/
def ACTION_NETWORK_LOCK : String := "network-lock"

/-- Modelled from the spec: phase name `network-unlock` (§3.3). -/
def ACTION_NETWORK_UNLOCK : String := "network-unlock"

/-- Modelled from the spec: phase name `pre-restore` (§3.3). -/
def ACTION_PRE_RESTORE : String := "pre-restore"

/-- Modelled from the spec: phase name `post-restore` (§3.3). -/
def ACTION_POST_RESTORE : String := "post-restore"

/-- Modelled from the spec: phase name `post-resume` (§3.3). -/
def ACTION_POST_RESUME : String := "post-resume"

/-- Modelled from the spec: default coordinator address `127.0.0.1` (§6.3);
`src/cli.rs` is not available. -/
def DEFAULT_ADDRESS : String := "127.0.0.1"

/-- Modelled from the spec: the default port is "chosen by deployer" (§6.3);
`src/cli.rs` is not available, so a placeholder literal is used.  No theorem
below depends on its value. -/
def DEFAULT_PORT : String := "8080"

/-! ## Per-client session state (`src/server/client_status.rs`) -/

/-- The `ClientStatus` struct of `src/server/client_status.rs`. -/
structure ClientStatus where
  connected : Bool
  ready : Bool
  local_checkpoint : Bool
  current_action : String

/-- `ClientStatus::new` (client_status.rs lines 28-35). -/
def ClientStatus.new : ClientStatus :=
  { connected := true, ready := false, local_checkpoint := false, current_action := "" }

/-- `ClientStatus::set_action` (client_status.rs lines 38-40). -/
def ClientStatus.set_action (s : ClientStatus) (action : String) : ClientStatus :=
  { s with current_action := action }

/-- `ClientStatus::is_ready_for_action` (client_status.rs lines 42-44). -/
def ClientStatus.is_ready_for_action (s : ClientStatus) (action : String) : Bool :=
  s.ready && (s.current_action == action)

/-- `ClientStatus::is_connected` (client_status.rs lines 47-49). -/
def ClientStatus.is_connected (s : ClientStatus) : Bool :=
  s.connected

/-- `ClientStatus::is_ready` (client_status.rs lines 51-53). -/
def ClientStatus.is_ready (s : ClientStatus) : Bool :=
  s.ready

/-- `ClientStatus::set_ready` (client_status.rs lines 55-57). -/
def ClientStatus.set_ready (s : ClientStatus) (value : Bool) : ClientStatus :=
  { s with ready := value }

/-- `ClientStatus::set_local_checkpoint` (client_status.rs lines 59-61). -/
def ClientStatus.set_local_checkpoint (s : ClientStatus) : ClientStatus :=
  { s with local_checkpoint := true }

/-- `ClientStatus::has_local_checkpoint` (client_status.rs lines 63-65). -/
def ClientStatus.has_local_checkpoint (s : ClientStatus) : Bool :=
  s.local_checkpoint

/-- Modelled from the spec: "connected : bool (true on creation; false on
disconnect)" (§3.4).  The server code that marks a session disconnected is not
under src; `client_status.rs` itself has no operation that clears the flag. -/
def ClientStatus.disconnect (s : ClientStatus) : ClientStatus :=
  { s with connected := false }

/-- Modelled from the spec: the release rule of §4.2 counts, for a dependent
client in phase `P`, exactly the live connected sessions whose
`current_action = P` and `ready = true`.  The barrier engine combining
`is_connected` with `is_ready_for_action` lives in server code not under src;
the two predicates themselves are the source functions above. -/
def ClientStatus.countsTowardRelease (s : ClientStatus) (action : String) : Bool :=
  s.is_connected && s.is_ready_for_action action

/-- The public mutating operations of `ClientStatus`
(`set_action`, `set_ready`, `set_local_checkpoint`). -/
inductive SessionOp where
  | setAction (a : String)
  | setReady (b : Bool)
  | setLocalCheckpoint

/-- Apply one public operation to a session state. -/
def applySessionOp (s : ClientStatus) : SessionOp → ClientStatus
  | .setAction a => s.set_action a
  | .setReady b => s.set_ready b
  | .setLocalCheckpoint => s.set_local_checkpoint

/-! ## Phase classification (`src/main.rs` lines 106-112) -/

/-- `is_dump_action` (main.rs lines 106-108). -/
def is_dump_action (action : String) : Bool :=
  action == ACTION_PRE_DUMP || action == ACTION_NETWORK_LOCK ||
    action == ACTION_POST_DUMP || action == ACTION_PRE_STREAM

/-- `is_restore_action` (main.rs lines 110-112). -/
def is_restore_action (action : String) : Bool :=
  action == ACTION_PRE_RESTORE || action == ACTION_NETWORK_UNLOCK ||
    action == ACTION_POST_RESTORE || action == ACTION_POST_RESUME

lemma is_dump_action_iff (s : String) :
    is_dump_action s = true ↔
      s = ACTION_PRE_DUMP ∨ s = ACTION_NETWORK_LOCK ∨
        s = ACTION_POST_DUMP ∨ s = ACTION_PRE_STREAM := by
  simp [is_dump_action, Bool.or_eq_true, beq_iff_eq, or_assoc]

lemma is_restore_action_iff (s : String) :
    is_restore_action s = true ↔
      s = ACTION_PRE_RESTORE ∨ s = ACTION_NETWORK_UNLOCK ∨
        s = ACTION_POST_RESTORE ∨ s = ACTION_POST_RESUME := by
  simp [is_restore_action, Bool.or_eq_true, beq_iff_eq, or_assoc]

lemma not_dump_and_restore (s : String) :
    ¬(is_dump_action s = true ∧ is_restore_action s = true) := by
  rintro ⟨h1, h2⟩
  rw [is_dump_action_iff] at h1
  rw [is_restore_action_iff] at h2
  rcases h1 with rfl | rfl | rfl | rfl <;>
    rcases h2 with h | h | h | h <;> exact absurd h (by decide)

/-! ## Claims about the session state and phase classification -/

/-- C7: the phase classification partitions the eight phases: `is_dump_action`
holds exactly for pre-dump, post-dump, network-lock and pre-stream,
`is_restore_action` holds exactly for pre-restore, post-restore, post-resume
and network-unlock, and no string satisfies both predicates. -/
theorem phase_classification_partition (s : String) :
    (is_dump_action s = true ↔
      s = "pre-dump" ∨ s = "post-dump" ∨ s = "network-lock" ∨ s = "pre-stream") ∧
    (is_restore_action s = true ↔
      s = "pre-restore" ∨ s = "post-restore" ∨ s = "post-resume" ∨ s = "network-unlock") ∧
    ¬(is_dump_action s = true ∧ is_restore_action s = true) := by
  refine ⟨?_, ?_, not_dump_and_restore s⟩
  · rw [is_dump_action_iff]
    show _ ↔ _
    constructor
    · rintro (rfl | rfl | rfl | rfl) <;> simp [ACTION_PRE_DUMP, ACTION_NETWORK_LOCK,
        ACTION_POST_DUMP, ACTION_PRE_STREAM]
    · rintro (rfl | rfl | rfl | rfl) <;> simp [ACTION_PRE_DUMP, ACTION_NETWORK_LOCK,
        ACTION_POST_DUMP, ACTION_PRE_STREAM]
  · rw [is_restore_action_iff]
    constructor
    · rintro (rfl | rfl | rfl | rfl) <;> simp [ACTION_PRE_RESTORE, ACTION_NETWORK_UNLOCK,
        ACTION_POST_RESTORE, ACTION_POST_RESUME]
    · rintro (rfl | rfl | rfl | rfl) <;> simp [ACTION_PRE_RESTORE, ACTION_NETWORK_UNLOCK,
        ACTION_POST_RESTORE, ACTION_POST_RESUME]

/-- Witness for C7 at the concrete phase `pre-dump`. -/
theorem phase_classification_partition_witness :
    (is_dump_action "pre-dump" = true ↔
      "pre-dump" = "pre-dump" ∨ "pre-dump" = "post-dump" ∨
        "pre-dump" = "network-lock" ∨ "pre-dump" = "pre-stream") ∧
    (is_restore_action "pre-dump" = true ↔
      "pre-dump" = "pre-restore" ∨ "pre-dump" = "post-restore" ∨
        "pre-dump" = "post-resume" ∨ "pre-dump" = "network-unlock") ∧
    ¬(is_dump_action "pre-dump" = true ∧ is_restore_action "pre-dump" = true) :=
  phase_classification_partition "pre-dump"

/-- C2: a session counts toward the release of a dependent client in phase `P`
exactly when it is connected, its ready flag is true and its current action
equals `P`; a session whose connected flag is false never satisfies the
predicate. -/
theorem counts_toward_release_iff (s : ClientStatus) (p : String) :
    (s.countsTowardRelease p = true ↔
      s.connected = true ∧ s.ready = true ∧ s.current_action = p) ∧
    (s.connected = false → s.countsTowardRelease p = false) := by
  constructor
  · simp [ClientStatus.countsTowardRelease, ClientStatus.is_connected,
      ClientStatus.is_ready_for_action, Bool.and_eq_true, beq_iff_eq, and_assoc]
  · intro h
    simp [ClientStatus.countsTowardRelease, ClientStatus.is_connected, h]

/-- Witness for C2: a disconnected session that is otherwise ready for
`pre-dump` does not count toward release. -/
theorem counts_toward_release_iff_witness :
    ClientStatus.countsTowardRelease
      { connected := false, ready := true, local_checkpoint := false,
        current_action := "pre-dump" } "pre-dump" = false :=
  (counts_toward_release_iff
    { connected := false, ready := true, local_checkpoint := false,
      current_action := "pre-dump" } "pre-dump").2 rfl

/-- C8: a freshly created session has `connected = true`, `ready = false`,
`local_checkpoint = false` and an empty current action, and disconnecting a
session clears its connected flag. -/
theorem new_session_state :
    ClientStatus.new.connected = true ∧
    ClientStatus.new.ready = false ∧
    ClientStatus.new.local_checkpoint = false ∧
    ClientStatus.new.current_action = "" ∧
    ∀ s : ClientStatus, (s.disconnect).connected = false := by
  refine ⟨rfl, rfl, rfl, rfl, ?_⟩
  intro s
  rfl

lemma applySessionOp_connected (s : ClientStatus) (op : SessionOp) :
    (applySessionOp s op).connected = s.connected := by
  cases op <;> rfl

lemma foldl_applySessionOp_connected (ops : List SessionOp) :
    ∀ s : ClientStatus, (ops.foldl applySessionOp s).connected = s.connected := by
  induction ops with
  | nil => intro s; rfl
  | cons op ops ih =>
    intro s
    rw [List.foldl_cons, ih, applySessionOp_connected]

/-- C9: every session state reachable from `ClientStatus::new` by a finite
sequence of the public operations `set_action`, `set_ready` and
`set_local_checkpoint` still reports `is_connected() = true`. -/
theorem reachable_session_is_connected (ops : List SessionOp) :
    (ops.foldl applySessionOp ClientStatus.new).is_connected = true := by
  rw [ClientStatus.is_connected, foldl_applySessionOp_connected]
  rfl

/-! ## Container-id discovery (`src/main.rs` lines 57-79)

`find_container_id_from_pid` reads `/proc/<pid>/cgroup` and scans every line
for a 64-character run of ASCII hexadecimal digits with non-hexadecimal (or
line-edge) neighbours, keeping the last hit.  The file content is modelled
after line splitting as a `List (List Char)`; the byte indices of the Rust
code coincide with character indices on the ASCII content of cgroup files. -/

/-- `char::is_ascii_hexdigit` of Rust: `0-9`, `a-f`, `A-F`. -/
def isAsciiHexDigit (c : Char) : Bool :=
  (('0' ≤ c) && (c ≤ '9')) || (('a' ≤ c) && (c ≤ 'f')) || (('A' ≤ c) && (c ≤ 'F'))

/-- The 64-character window `&line[i..i + 64]` of main.rs line 67. -/
def windowAt (line : List Char) (i : Nat) : List Char :=
  (line.drop i).take 64

/-- The loop-body test of main.rs lines 68-71: the window starting at `i` is
all hexadecimal and sits on non-hexadecimal boundaries.  The first conjunct
records the loop bound `i <= line.len() - 64` of line 66 (for such `i` it is
always true, and it makes the predicate false outside the scanned range). -/
def qualifiesAt (line : List Char) (i : Nat) : Bool :=
  decide (i + 64 ≤ line.length) && (windowAt line i).all isAsciiHexDigit &&
    (decide (i = 0) || !(isAsciiHexDigit (line.getD (i - 1) ' '))) &&
    (decide (i + 64 = line.length) || !(isAsciiHexDigit (line.getD (i + 64) ' ')))

/-- One step of the `last_found_id` accumulation of main.rs lines 63-76:
a hit overwrites the accumulator, a miss keeps it. -/
def updateFound (f : α → Option β) (acc : Option β) (a : α) : Option β :=
  match f a with
  | some b => some b
  | none => acc

/-- The `last_found_id` loop: the last `some` produced by `f` along `l`. -/
def lastFound (f : α → Option β) (l : List α) : Option β :=
  l.foldl (updateFound f) none

/-- The inner loop of main.rs lines 64-76 on one line: the last qualifying
window of the line, if any. -/
def scanLine (line : List Char) : Option (List Char) :=
  if line.length < 64 then none
  else lastFound (fun i => if qualifiesAt line i then some (windowAt line i) else none)
    (List.range (line.length - 64 + 1))

/-- `find_container_id_from_pid` (main.rs lines 58-79) after the file read:
scan all lines, return the last hit or an error. -/
def find_container_id_from_cgroup (lines : List (List Char)) : Except String String :=
  match lastFound scanLine lines with
  | some w => .ok ⟨w⟩
  | none => .error "Could not determine container ID from cgroup file"

/-! ## Dependency lookup (`src/main.rs` lines 82-92)

`find_dependencies_in_central_config` iterates a `HashMap` and takes the
first key that is a prefix of the discovered id.  `HashMap` iteration order
is arbitrary (randomized per process in Rust); it is modelled as the order of
an association list. -/

/-- Rust's `str::starts_with`, on character data.  (`String.startsWith` of
Lean has the same semantics but is opaque to kernel reduction, so the test is
stated on `.data`.) -/
def strStartsWith (s key : String) : Bool :=
  key.data.isPrefixOf s.data

/-- `find_dependencies_in_central_config` (main.rs lines 83-92); the list
order stands for the hash-map iteration order. -/
def find_dependencies_in_central_config (dependencies_map : List (String × List String))
    (discovered_id : String) : Except String String :=
  match dependencies_map.find? (fun kv => strStartsWith discovered_id kv.1) with
  | some kv => .ok (String.intercalate ":" kv.2)
  | none => .error ("No dependency entry found for container ID matching " ++ discovered_id)

/-! ## Last-match lemmas for the `last_found_id` accumulation -/

lemma foldl_updateFound_eq (f : α → Option β) :
    ∀ (l : List α) (init : Option β),
      l.foldl (updateFound f) init = (l.reverse.findSome? f).or init := by
  intro l
  induction l with
  | nil => intro init; simp [Option.or]
  | cons a l ih =>
    intro init
    rw [List.foldl_cons, ih, List.reverse_cons, List.findSome?_append]
    cases hx : l.reverse.findSome? f with
    | some b => simp [Option.or]
    | none =>
      simp only [Option.or]
      cases hfa : f a with
      | some d => simp [List.findSome?, hfa, updateFound, Option.or]
      | none => simp [List.findSome?, hfa, updateFound, Option.or]

lemma lastFound_eq_findSome_reverse (f : α → Option β) (l : List α) :
    lastFound f l = l.reverse.findSome? f := by
  rw [lastFound, foldl_updateFound_eq]
  cases l.reverse.findSome? f <;> simp [Option.or]

lemma lastFound_eq_none_iff (f : α → Option β) (l : List α) :
    lastFound f l = none ↔ ∀ x ∈ l, f x = none := by
  rw [lastFound_eq_findSome_reverse, List.findSome?_eq_none_iff]
  constructor
  · intro h x hx
    exact h x (List.mem_reverse.2 hx)
  · intro h x hx
    exact h x (List.mem_reverse.1 hx)

lemma lastFound_eq_some_iff (f : α → Option β) (l : List α) (b : β) :
    lastFound f l = some b ↔
      ∃ l1 a l2, l = l1 ++ a :: l2 ∧ f a = some b ∧ ∀ x ∈ l2, f x = none := by
  rw [lastFound_eq_findSome_reverse, List.findSome?_eq_some_iff]
  constructor
  · rintro ⟨r1, a, r2, hrev, hfa, hnone⟩
    refine ⟨r2.reverse, a, r1.reverse, ?_, hfa, ?_⟩
    · have := congrArg List.reverse hrev
      simpa [List.reverse_append] using this
    · intro x hx
      exact hnone x (List.mem_reverse.1 hx)
  · rintro ⟨l1, a, l2, hdec, hfa, hnone⟩
    refine ⟨l2.reverse, a, l1.reverse, ?_, hfa, ?_⟩
    · rw [hdec]
      simp [List.reverse_append]
    · intro x hx
      exact hnone x (List.mem_reverse.1 hx)

lemma lastFound_append_singleton (f : α → Option β) (l : List α) (a : α) :
    lastFound f (l ++ [a]) = (f a).or (lastFound f l) := by
  rw [lastFound, List.foldl_append]
  show updateFound f (lastFound f l) a = _
  cases hfa : f a with
  | some b => simp [updateFound, hfa, Option.or]
  | none => simp [updateFound, hfa, Option.or]

lemma lastFound_range_eq_some_iff (f : Nat → Option β) :
    ∀ (k : Nat) (b : β),
      lastFound f (List.range k) = some b ↔
        ∃ i, i < k ∧ f i = some b ∧ ∀ j, i < j → j < k → f j = none := by
  intro k
  induction k with
  | zero => intro b; simp [lastFound, updateFound, List.range_zero]
  | succ k ih =>
    intro b
    rw [List.range_succ, lastFound_append_singleton]
    cases hfk : f k with
    | some c =>
      simp only [Option.or]
      constructor
      · intro h
        refine ⟨k, Nat.lt_succ_self k, by rw [hfk, h], ?_⟩
        intro j hj1 hj2
        omega
      · rintro ⟨i, hik, hfi, hlast⟩
        rcases Nat.lt_succ_iff_lt_or_eq.1 hik with hik' | rfl
        · exact absurd (hlast k hik' (Nat.lt_succ_self k)) (by rw [hfk]; simp)
        · rw [hfi] at hfk; exact hfk.symm
    | none =>
      simp only [Option.or]
      rw [ih b]
      constructor
      · rintro ⟨i, hik, hfi, hlast⟩
        refine ⟨i, Nat.lt_succ_of_lt hik, hfi, ?_⟩
        intro j hj1 hj2
        rcases Nat.lt_succ_iff_lt_or_eq.1 hj2 with hj2' | rfl
        · exact hlast j hj1 hj2'
        · exact hfk
      · rintro ⟨i, hik, hfi, hlast⟩
        rcases Nat.lt_succ_iff_lt_or_eq.1 hik with hik' | rfl
        · refine ⟨i, hik', hfi, ?_⟩
          intro j hj1 hj2
          exact hlast j hj1 (Nat.lt_succ_of_lt hj2)
        · rw [hfi] at hfk; cases hfk

lemma qualifiesAt_le_length {line : List Char} {i : Nat}
    (h : qualifiesAt line i = true) : i + 64 ≤ line.length := by
  rw [qualifiesAt] at h
  simp only [Bool.and_eq_true, decide_eq_true_eq] at h
  exact h.1.1.1

lemma qualifiesAt_false_of_short {line : List Char} {i : Nat}
    (h : line.length < i + 64) : qualifiesAt line i = false := by
  rw [qualifiesAt]
  have : decide (i + 64 ≤ line.length) = false := by simp; omega
  simp [this]

lemma scanLine_eq_none_iff (line : List Char) :
    scanLine line = none ↔ ∀ i, qualifiesAt line i = false := by
  rw [scanLine]
  by_cases h64 : line.length < 64
  · simp only [if_pos h64, true_iff]
    intro i
    exact qualifiesAt_false_of_short (by omega)
  · rw [if_neg h64, lastFound_eq_none_iff]
    constructor
    · intro h i
      by_cases hik : i < line.length - 64 + 1
      · have := h i (List.mem_range.2 hik)
        by_cases hq : qualifiesAt line i = true
        · rw [if_pos hq] at this; cases this
        · exact Bool.not_eq_true _ ▸ (by simpa using hq)
      · exact qualifiesAt_false_of_short (by omega)
    · intro h i _
      rw [h i]
      simp

lemma scanLine_eq_some_iff (line : List Char) (w : List Char) :
    scanLine line = some w ↔
      ∃ i, qualifiesAt line i = true ∧ w = windowAt line i ∧
        ∀ j, i < j → qualifiesAt line j = false := by
  rw [scanLine]
  by_cases h64 : line.length < 64
  · simp only [if_pos h64]
    constructor
    · intro h; cases h
    · rintro ⟨i, hq, _, _⟩
      have := qualifiesAt_le_length hq
      omega
  · rw [if_neg h64, lastFound_range_eq_some_iff]
    constructor
    · rintro ⟨i, hik, hfi, hlast⟩
      by_cases hq : qualifiesAt line i = true
      · rw [if_pos hq] at hfi
        refine ⟨i, hq, (Option.some.injEq _ _ ▸ hfi).symm, ?_⟩
        intro j hij
        by_cases hjk : j < line.length - 64 + 1
        · have := hlast j hij hjk
          by_cases hqj : qualifiesAt line j = true
          · rw [if_pos hqj] at this; cases this
          · simpa using hqj
        · exact qualifiesAt_false_of_short (by omega)
      · rw [if_neg hq] at hfi; cases hfi
    · rintro ⟨i, hq, hw, hlast⟩
      have hle := qualifiesAt_le_length hq
      refine ⟨i, by omega, by rw [if_pos hq, hw], ?_⟩
      intro j hij _
      rw [hlast j hij]
      simp

lemma windowAt_length {line : List Char} {i : Nat} (h : i + 64 ≤ line.length) :
    (windowAt line i).length = 64 := by
  rw [windowAt]
  simp only [List.length_take, List.length_drop]
  omega

lemma qualifiesAt_window_hex {line : List Char} {i : Nat}
    (h : qualifiesAt line i = true) : (windowAt line i).all isAsciiHexDigit = true := by
  rw [qualifiesAt] at h
  simp only [Bool.and_eq_true] at h
  exact h.1.1.2

/-- C10: `find_container_id_from_pid` succeeds exactly when some line of the
cgroup file contains a 64-character run of ASCII hexadecimal digits with
non-hexadecimal neighbours, and the returned string is that last such run:
64 hexadecimal characters, taken from the last line containing a qualifying
run, at the rightmost qualifying position of that line. -/
theorem find_container_id_characterization (lines : List (List Char)) :
    ((∃ s, find_container_id_from_cgroup lines = .ok s) ↔
      ∃ line ∈ lines, ∃ i, qualifiesAt line i = true) ∧
    (∀ s, find_container_id_from_cgroup lines = .ok s →
      s.length = 64 ∧ s.data.all isAsciiHexDigit = true ∧
      ∃ pre line post, lines = pre ++ line :: post ∧
        (∃ i, qualifiesAt line i = true ∧ s.data = windowAt line i ∧
          ∀ j, i < j → qualifiesAt line j = false) ∧
        ∀ line2 ∈ post, ∀ j, qualifiesAt line2 j = false) := by
  constructor
  · rw [find_container_id_from_cgroup]
    cases hlf : lastFound scanLine lines with
    | some w =>
      simp only [Except.ok.injEq, exists_eq]
      rw [lastFound_eq_some_iff] at hlf
      obtain ⟨l1, line, l2, hdec, hsc, _⟩ := hlf
      rw [scanLine_eq_some_iff] at hsc
      obtain ⟨i, hq, _, _⟩ := hsc
      constructor
      · intro _
        exact ⟨line, by rw [hdec]; simp, i, hq⟩
      · intro _
        exact ⟨⟨w⟩, rfl⟩
    | none =>
      constructor
      · rintro ⟨s, hs⟩
        exact Except.noConfusion hs
      · rintro ⟨line, hmem, i, hq⟩
        rw [lastFound_eq_none_iff] at hlf
        have h2 := hlf line hmem
        rw [scanLine_eq_none_iff] at h2
        rw [h2 i] at hq
        cases hq
  · intro s hs
    rw [find_container_id_from_cgroup] at hs
    cases hlf : lastFound scanLine lines with
    | none => rw [hlf] at hs; exact Except.noConfusion hs
    | some w =>
      rw [hlf] at hs
      have hsw : s = ⟨w⟩ := by
        have := hs.symm
        rwa [Except.ok.injEq] at this
      subst hsw
      rw [lastFound_eq_some_iff] at hlf
      obtain ⟨l1, line, l2, hdec, hsc, hnone⟩ := hlf
      rw [scanLine_eq_some_iff] at hsc
      obtain ⟨i, hq, hw, hlast⟩ := hsc
      have hle := qualifiesAt_le_length hq
      refine ⟨?_, ?_, l1, line, l2, hdec, ⟨i, hq, hw, hlast⟩, ?_⟩
      · show w.length = 64
        rw [hw]
        exact windowAt_length hle
      · show w.all isAsciiHexDigit = true
        rw [hw]
        exact qualifiesAt_window_hex hq
      · intro line2 hmem j
        have := hnone line2 hmem
        rw [scanLine_eq_none_iff] at this
        exact this j

/-- Witness input for C10: a single line of 64 `a` characters. -/
def hexLineA : List Char := List.replicate 64 'a'

/-- Witness for C10: on the one-line file of 64 `a`s the function returns
that run, and the characterization applies to it. -/
theorem find_container_id_characterization_witness :
    find_container_id_from_cgroup [hexLineA] = .ok ⟨hexLineA⟩ ∧
    ((⟨hexLineA⟩ : String).length = 64 ∧
      (⟨hexLineA⟩ : String).data.all isAsciiHexDigit = true ∧
      ∃ pre line post, [hexLineA] = pre ++ line :: post ∧
        (∃ i, qualifiesAt line i = true ∧ (⟨hexLineA⟩ : String).data = windowAt line i ∧
          ∀ j, i < j → qualifiesAt line j = false) ∧
        ∀ line2 ∈ post, ∀ j, qualifiesAt line2 j = false) :=
  ⟨rfl, (find_container_id_characterization [hexLineA]).2 ⟨hexLineA⟩ rfl⟩

/-- C1 counterexample: for the dependency map with keys `a` and `ab` (both
prefixes of the queried id `abc`, `ab` the longer), the lookup returns the
entry of whichever matching key the map's iteration order presents first, not
the longest-prefix entry; two iteration orders of the same map give different
results, so the result is not determined by the map contents alone. -/
theorem find_dependencies_order_dependent :
    find_dependencies_in_central_config [("a", ["x"]), ("ab", ["y"])] "abc" = .ok "x" ∧
    find_dependencies_in_central_config [("ab", ["y"]), ("a", ["x"])] "abc" = .ok "y" ∧
    strStartsWith "abc" "a" = true ∧ strStartsWith "abc" "ab" = true ∧
    ("a" : String).length < ("ab" : String).length :=
  ⟨rfl, rfl, rfl, rfl, by decide⟩

/-- C1 (amended): the dependency lookup returns the colon-joined dependency
list of the first key in the map's iteration order that is a prefix of the
queried id; which key that is depends on the iteration order, not on key
length or lexicographic rank. -/
theorem find_dependencies_first_match (m : List (String × List String)) (id s : String) :
    find_dependencies_in_central_config m id = .ok s ↔
      ∃ l1 kv l2, m = l1 ++ kv :: l2 ∧ strStartsWith id kv.1 = true ∧
        s = String.intercalate ":" kv.2 ∧ ∀ kv2 ∈ l1, strStartsWith id kv2.1 = false := by
  unfold find_dependencies_in_central_config
  cases hf : m.find? (fun kv => strStartsWith id kv.1) with
  | none =>
    rw [List.find?_eq_none] at hf
    constructor
    · intro h
      exact Except.noConfusion h
    · rintro ⟨l1, kv, l2, hdec, hsw, _, _⟩
      have hmem : kv ∈ m := by rw [hdec]; simp
      exact absurd hsw (by simpa using hf kv hmem)
  | some kv =>
    rw [List.find?_eq_some] at hf
    obtain ⟨hp, l1, l2, hdec, hall⟩ := hf
    constructor
    · intro h
      have hs : s = String.intercalate ":" kv.2 := by
        injection h with h2
        exact h2.symm
      refine ⟨l1, kv, l2, hdec, by simpa using hp, hs, ?_⟩
      intro kv2 hmem
      simpa using hall kv2 hmem
    · rintro ⟨l1a, kva, l2a, hdeca, hswa, hsa, halla⟩
      have hfa : m.find? (fun kv => strStartsWith id kv.1) = some kva := by
        rw [List.find?_eq_some]
        refine ⟨by simpa using hswa, l1a, l2a, hdeca, ?_⟩
        intro a ha
        simp [halla a ha]
      have hfb : m.find? (fun kv => strStartsWith id kv.1) = some kv := by
        rw [List.find?_eq_some]
        exact ⟨hp, l1, l2, hdec, hall⟩
      rw [hfb] at hfa
      injection hfa with h2
      rw [hsa, ← h2]

/-! ## Per-checkpoint config file (`src/main.rs` lines 94-104) and its parse

`write_per_checkpoint_config` emits the literal JSON template of main.rs
lines 97-101 with the id and dependency strings spliced in, unescaped.  The
restore side parses the file with the `config` crate's JSON backend into a
`HashMap<String, String>` (main.rs lines 177-182); that parse is modelled by
a recursive-descent parser for a JSON object whose values are strings,
decoding the standard single-character escapes and rejecting raw control
characters, as the JSON grammar does. -/

/-- An opening brace character. -/
def lbrace : Char := '\x7b'

/-- A closing brace character. -/
def rbrace : Char := '\x7d'

/-- JSON insignificant whitespace. -/
def isJsonWs (c : Char) : Bool :=
  c = ' ' || c = '\n' || c = '\t' || c = '\r'

/-- Drop leading JSON whitespace. -/
def skipWs : List Char → List Char
  | [] => []
  | c :: rest => if isJsonWs c then skipWs rest else c :: rest

/-- Decode a single-character JSON escape (after a backslash). -/
def decodeEscape (c : Char) : Option Char :=
  if c = '"' then some '"'
  else if c = '\\' then some '\\'
  else if c = '/' then some '/'
  else if c = 'n' then some '\n'
  else if c = 't' then some '\t'
  else if c = 'r' then some '\r'
  else if c = 'b' then some (Char.ofNat 8)
  else if c = 'f' then some (Char.ofNat 12)
  else none

/-- Parse the body of a JSON string literal (after the opening quote) up to
and including the closing quote; returns the decoded content and the rest. -/
def parseStringBody : List Char → Option (List Char × List Char)
  | [] => none
  | c :: rest =>
    if c = '"' then some ([], rest)
    else if c = '\\' then
      match rest with
      | [] => none
      | e :: rest2 =>
        match decodeEscape e, parseStringBody rest2 with
        | some d, some (s, r) => some (d :: s, r)
        | _, _ => none
    else if c.toNat < 32 then none
    else
      match parseStringBody rest with
      | some (s, r) => some (c :: s, r)
      | none => none

/-- A character that a JSON string literal represents by itself: not a quote,
not a backslash, not a control character. -/
def jsonPlain (c : Char) : Bool :=
  (c != '"') && (c != '\\') && (decide (32 ≤ c.toNat))

/-- Parse one `"key": "value"` member of a JSON object of strings. -/
def parseMember (l : List Char) : Option ((String × String) × List Char) :=
  match l with
  | [] => none
  | c :: rest =>
    if c = '"' then
      match parseStringBody rest with
      | none => none
      | some (k, r1) =>
        match skipWs r1 with
        | [] => none
        | c2 :: r2 =>
          if c2 = ':' then
            match skipWs r2 with
            | [] => none
            | c3 :: r3 =>
              if c3 = '"' then
                match parseStringBody r3 with
                | none => none
                | some (v, r4) => some ((⟨k⟩, ⟨v⟩), r4)
              else none
          else none
    else none

/-- Parse a nonempty comma-separated member list followed by the closing
brace; `fuel` bounds the number of members. -/
def parseMembers : Nat → List Char → Option (List (String × String) × List Char)
  | 0, _ => none
  | fuel + 1, l =>
    match parseMember l with
    | none => none
    | some (kv, r) =>
      match skipWs r with
      | [] => none
      | c :: rest =>
        if c = ',' then
          match parseMembers fuel (skipWs rest) with
          | some (ms, r2) => some (kv :: ms, r2)
          | none => none
        else if c = rbrace then some ([kv], rest)
        else none

/-- Parse a complete JSON object of string keys and string values, with
nothing but whitespace around it. -/
def parseJsonStringMap (s : String) : Option (List (String × String)) :=
  match skipWs s.data with
  | [] => none
  | c :: rest =>
    if c = lbrace then
      match skipWs rest with
      | [] => none
      | c2 :: rest2 =>
        if c2 = rbrace then
          if (skipWs rest2).isEmpty then some [] else none
        else
          match parseMembers s.data.length (c2 :: rest2) with
          | some (ms, r) => if (skipWs r).isEmpty then some ms else none
          | none => none
    else none

/-- `HashMap::get` on the parsed map: first binding of the key. -/
def lookupStr (m : List (String × String)) (k : String) : Option String :=
  (m.find? (fun kv => kv.1 == k)).map (fun kv => kv.2)

/-- `write_per_checkpoint_config` (main.rs lines 95-104): the content written
to `<images_dir>/<CONFIG_FILE>`, the format string of lines 97-101 with `id`
and `dependencies` spliced in verbatim. -/
def write_per_checkpoint_config (id dependencies : String) : String :=
  "\x7b\n    \"id\": \"" ++ id ++ "\",\n    \"dependencies\": \"" ++ dependencies ++ "\"\n\x7d"

/-- The restore-side read of the per-checkpoint config (main.rs lines
177-182): parse the file as a string map, take the mandatory `id` key and the
`dependencies` key with empty-string default. -/
def load_local_id_deps (content : String) : Option (String × String) :=
  match parseJsonStringMap content with
  | none => none
  | some m =>
    match lookupStr m "id" with
    | none => none
    | some id => some (id, (lookupStr m "dependencies").getD "")

/-! ## Round-trip of the per-checkpoint config (C4) -/

theorem parseStringBody_append : ∀ (s rest : List Char), s.all jsonPlain = true →
    parseStringBody (s ++ '"' :: rest) = some (s, rest)
  | [], _, _ => by rw [List.nil_append, parseStringBody.eq_def]; simp
  | c :: s', rest, h => by
    rw [List.all_cons, Bool.and_eq_true] at h
    obtain ⟨hc, hs⟩ := h
    rw [jsonPlain, Bool.and_eq_true, Bool.and_eq_true] at hc
    obtain ⟨⟨h1, h2⟩, h3⟩ := hc
    rw [bne_iff_ne] at h1 h2
    rw [decide_eq_true_eq] at h3
    show parseStringBody (c :: (s' ++ '"' :: rest)) = _
    rw [parseStringBody.eq_def]
    simp only []
    rw [if_neg h1, if_neg h2, if_neg (by omega)]
    rw [parseStringBody_append s' rest hs]

lemma skipWs_not_ws {c : Char} (h : isJsonWs c = false) (l : List Char) :
    skipWs (c :: l) = c :: l := by
  rw [skipWs, h]
  simp

lemma skipWs_ws {c : Char} (h : isJsonWs c = true) (l : List Char) :
    skipWs (c :: l) = skipWs l := by
  rw [skipWs, h]
  simp

lemma parseMember_lit (key val rest : List Char)
    (hk : key.all jsonPlain = true) (hv : val.all jsonPlain = true) :
    parseMember ('"' :: (key ++ '"' :: ':' :: ' ' :: '"' :: (val ++ '"' :: rest)))
      = some ((⟨key⟩, ⟨val⟩), rest) := by
  rw [parseMember]
  rw [if_pos rfl]
  rw [parseStringBody_append _ _ hk]
  simp only []
  rw [skipWs_not_ws (by decide)]
  simp only []
  rw [if_pos trivial]
  rw [skipWs_ws (by decide), skipWs_not_ws (by decide)]
  simp only []
  rw [if_pos trivial]
  rw [parseStringBody_append _ _ hv]

lemma parseMembers_template (fuel : Nat) (idd depsd : List Char)
    (hid : idd.all jsonPlain = true) (hdeps : depsd.all jsonPlain = true) :
    parseMembers (fuel + 1 + 1)
      ('"' :: 'i' :: 'd' :: '"' :: ':' :: ' ' :: '"' ::
        (idd ++ '"' :: ',' :: '\n' :: ' ' :: ' ' :: ' ' :: ' ' :: '"' ::
          'd' :: 'e' :: 'p' :: 'e' :: 'n' :: 'd' :: 'e' :: 'n' :: 'c' :: 'i' :: 'e' :: 's' ::
          '"' :: ':' :: ' ' :: '"' :: (depsd ++ '"' :: '\n' :: rbrace :: [])))
      = some ([(⟨['i', 'd']⟩, ⟨idd⟩),
               (⟨['d', 'e', 'p', 'e', 'n', 'd', 'e', 'n', 'c', 'i', 'e', 's']⟩, ⟨depsd⟩)], []) := by
  have h1 := parseMember_lit ['i', 'd'] idd
    (',' :: '\n' :: ' ' :: ' ' :: ' ' :: ' ' :: '"' ::
      'd' :: 'e' :: 'p' :: 'e' :: 'n' :: 'd' :: 'e' :: 'n' :: 'c' :: 'i' :: 'e' :: 's' ::
      '"' :: ':' :: ' ' :: '"' :: (depsd ++ '"' :: '\n' :: rbrace :: [])) (by decide) hid
  simp only [List.cons_append, List.nil_append] at h1
  have h2 := parseMember_lit ['d', 'e', 'p', 'e', 'n', 'd', 'e', 'n', 'c', 'i', 'e', 's'] depsd
    ('\n' :: rbrace :: []) (by decide) hdeps
  simp only [List.cons_append, List.nil_append] at h2
  rw [parseMembers]
  rw [h1]
  simp only []
  rw [skipWs_not_ws (by decide)]
  simp only []
  rw [if_pos trivial]
  rw [skipWs_ws (by decide), skipWs_ws (by decide), skipWs_ws (by decide),
    skipWs_ws (by decide), skipWs_ws (by decide), skipWs_not_ws (by decide)]
  rw [parseMembers]
  rw [h2]
  simp only []
  rw [skipWs_ws (by decide), skipWs_not_ws (by decide)]
  simp only []
  rw [if_neg (by decide), if_pos trivial]

lemma parse_write_roundtrip (id deps : String)
    (hid : id.data.all jsonPlain = true) (hdeps : deps.data.all jsonPlain = true) :
    parseJsonStringMap (write_per_checkpoint_config id deps) =
      some [("id", id), ("dependencies", deps)] := by
  have hdata : (write_per_checkpoint_config id deps).data =
      lbrace :: '\n' :: ' ' :: ' ' :: ' ' :: ' ' :: '"' :: 'i' :: 'd' :: '"' :: ':' :: ' ' :: '"' ::
        (id.data ++ '"' :: ',' :: '\n' :: ' ' :: ' ' :: ' ' :: ' ' :: '"' ::
          'd' :: 'e' :: 'p' :: 'e' :: 'n' :: 'd' :: 'e' :: 'n' :: 'c' :: 'i' :: 'e' :: 's' ::
          '"' :: ':' :: ' ' :: '"' :: (deps.data ++ '"' :: '\n' :: rbrace :: [])) := by
    simp [write_per_checkpoint_config, String.data_append, lbrace, rbrace]
  have hn : (write_per_checkpoint_config id deps).data.length =
      (id.data.length + deps.data.length + 38) + 1 + 1 := by
    rw [hdata]
    simp [List.length_append]
    omega
  rw [parseJsonStringMap, hn, hdata]
  rw [skipWs_not_ws (by decide)]
  simp only []
  rw [if_pos trivial]
  rw [skipWs_ws (by decide), skipWs_ws (by decide), skipWs_ws (by decide),
    skipWs_ws (by decide), skipWs_ws (by decide), skipWs_not_ws (by decide)]
  simp only []
  rw [if_neg (by decide)]
  rw [parseMembers_template (id.data.length + deps.data.length + 38) id.data deps.data hid hdeps]
  simp only []
  rfl

/-- C4 counterexample: for the id `a"b` (which contains a double quote) the
writer emits invalid JSON, so the restore-side load fails instead of
returning the written id and dependencies. -/
theorem config_roundtrip_counterexample :
    load_local_id_deps (write_per_checkpoint_config "a\"b" "d") = none := by
  decide

/-- C4 (amended): for every id and dependency string whose characters are
plain JSON string characters (no double quote, no backslash, no control
character), writing the per-checkpoint config and loading it on the restore
side yields exactly the written id and dependencies. -/
theorem config_roundtrip (id deps : String)
    (hid : id.data.all jsonPlain = true) (hdeps : deps.data.all jsonPlain = true) :
    load_local_id_deps (write_per_checkpoint_config id deps) = some (id, deps) := by
  rw [load_local_id_deps, parse_write_roundtrip id deps hid hdeps]
  rfl

/-- Witness for C4: the round trip at id `abc123` and dependencies `x:y`. -/
theorem config_roundtrip_witness :
    load_local_id_deps (write_per_checkpoint_config "abc123" "x:y") = some ("abc123", "x:y") :=
  config_roundtrip "abc123" "x:y" (by decide) (by decide)

/-! ## Configuration loading and the hook driver (`src/main.rs` lines 42-48,
114-188 and 190-230)

The filesystem and environment a hook invocation sees are modelled
abstractly: each config file is either absent or present with its parsed
contents, the `CRTOOLS_INIT_PID` variable is an optional number, the cgroup
file is an optional line list, and the streamer capture socket is absent,
present as a socket, or present as a non-socket.  Rust panics and
`process::exit` become constructors of an outcome type. -/

/-- The `ClientConfig` struct (main.rs lines 42-48). -/
structure ClientConfig where
  log_file : String
  address : String
  port : String
  id : String
  dependencies : String
deriving DecidableEq

/-- The parsed global `/etc/criu` config of main.rs lines 137-155: the three
optional string settings and the optional per-container dependencies table. -/
structure CentralConfig where
  address : Option String
  port : Option String
  log_file : Option String
  dependencies : Option (List (String × List String))

/-- The environment of one hook invocation: parsed local config file in the
images directory (if present), parsed global config file (if present), the
`CRTOOLS_INIT_PID` value, the readable cgroup file lines of that pid, whether
the `CRTOOLS_IMAGE_DIR` variable is set, and the state of the streamer
capture socket in the images directory (`none` = absent, `some true` =
present and a UNIX socket, `some false` = present but not a socket). -/
structure HookEnv where
  localConfig : Option (List (String × String))
  globalConfig : Option CentralConfig
  initPid : Option Nat
  cgroupLines : Option (List (List Char))
  imagesDirSet : Bool
  captureSocket : Option Bool

/-- `load_config_file` (main.rs lines 114-188).  Panics of the source
(`unwrap`, `expect`, explicit `panic!` calls) are modelled as `.error`.  The
side effect of main.rs lines 160-163 (writing the per-checkpoint config
during `pre-dump`/`pre-stream`) does not influence the returned configuration
and is modelled separately by `write_per_checkpoint_config`. -/
def load_config_file (env : HookEnv) (action : String) : Except String ClientConfig :=
  if is_dump_action action && env.localConfig.isSome then
    match env.localConfig with
    | some settings_map =>
      match lookupStr settings_map "id" with
      | none => .error "missing id in local config"
      | some id =>
        .ok { id := id,
              dependencies := (lookupStr settings_map "dependencies").getD "",
              address := (lookupStr settings_map "address").getD DEFAULT_ADDRESS,
              port := (lookupStr settings_map "port").getD DEFAULT_PORT,
              log_file := (lookupStr settings_map "log-file").getD "-" }
    | none => .error "unreachable: presence was checked"
  else
    match env.globalConfig with
    | none => .error "Global config file does not exist"
    | some central =>
      let address := central.address.getD DEFAULT_ADDRESS
      let port := central.port.getD DEFAULT_PORT
      let log_file := central.log_file.getD "-"
      if is_dump_action action then
        match env.initPid with
        | none => .error "CRTOOLS_INIT_PID not set"
        | some _pid =>
          match central.dependencies with
          | none => .error "dependencies map missing in central config"
          | some container_deps_map =>
            match env.cgroupLines with
            | none => .error "Failed to read cgroup file"
            | some lines =>
              match find_container_id_from_cgroup lines with
              | .error e => .error e
              | .ok container_id =>
                match find_dependencies_in_central_config container_deps_map container_id with
                | .error e => .error e
                | .ok dependencies =>
                  .ok { id := container_id, dependencies := dependencies,
                        address := address, port := port, log_file := log_file }
      else
        match env.localConfig with
        | none => .error "Restore action initiated, but no config file found in image directory"
        | some local_map =>
          match lookupStr local_map "id" with
          | none => .error "missing id in local config"
          | some id =>
            .ok { id := id,
                  dependencies := (lookupStr local_map "dependencies").getD "",
                  address := address, port := port, log_file := log_file }

/-- What one hook invocation does: exit with a code, panic (nonzero exit), or
open a connection to the coordinator (`run_client`) with the loaded
configuration and the streaming flag. -/
inductive HookOutcome where
  | exited (code : Nat)
  | panicked (msg : String)
  | ranClient (cfg : ClientConfig) (enable_streaming : Bool)

/-- The hook-mode branch of `main` (main.rs lines 191-230): load the
configuration, compute `enable_streaming` (exiting 0 when a capture socket
already exists on `pre-dump`, panicking when the file is not a socket), exit
0 for unrecognized actions, otherwise run the client. -/
def hook_main (env : HookEnv) (action : String) : HookOutcome :=
  if !env.imagesDirSet then .panicked "Missing image directory environment variable"
  else
    match load_config_file env action with
    | .error e => .panicked e
    | .ok client_config =>
      if action == ACTION_PRE_STREAM then
        if !is_dump_action action && !is_restore_action action then .exited 0
        else .ranClient client_config true
      else if action == ACTION_PRE_DUMP then
        match env.captureSocket with
        | some isSocket =>
          if !isSocket then .panicked "capture socket exists but is not a Unix socket"
          else .exited 0
        | none =>
          if !is_dump_action action && !is_restore_action action then .exited 0
          else .ranClient client_config false
      else
        if !is_dump_action action && !is_restore_action action then .exited 0
        else .ranClient client_config false

/-- C3: on `pre-dump`, when the configuration loads and the streamer capture
socket name exists in the images directory, the hook exits 0 immediately
(never reaching `run_client`) if the file is a UNIX socket, and panics
(nonzero exit) if it is not a socket. -/
theorem pre_dump_capture_socket (env : HookEnv) (cfg : ClientConfig)
    (hdir : env.imagesDirSet = true)
    (hload : load_config_file env ACTION_PRE_DUMP = .ok cfg) :
    (env.captureSocket = some true → hook_main env ACTION_PRE_DUMP = .exited 0) ∧
    (env.captureSocket = some false →
      ∃ msg, hook_main env ACTION_PRE_DUMP = .panicked msg) := by
  have hps : (ACTION_PRE_DUMP == ACTION_PRE_STREAM) = false := by decide
  have hpd : (ACTION_PRE_DUMP == ACTION_PRE_DUMP) = true := rfl
  constructor
  · intro hsock
    simp [hook_main, hdir, hload, hsock, hps, hpd]
  · intro hsock
    refine ⟨"capture socket exists but is not a Unix socket", ?_⟩
    simp [hook_main, hdir, hload, hsock, hps, hpd]

/-- Witness environment for C3, socket present and a UNIX socket. -/
def envSocketOk : HookEnv :=
  { localConfig := some [("id", "A")], globalConfig := none, initPid := none,
    cgroupLines := none, imagesDirSet := true, captureSocket := some true }

/-- Witness environment for C3, socket name present but not a socket. -/
def envSocketBad : HookEnv :=
  { localConfig := some [("id", "A")], globalConfig := none, initPid := none,
    cgroupLines := none, imagesDirSet := true, captureSocket := some false }

/-- The configuration loaded from the one-key local config of the C3
witness environments. -/
def cfgIdA : ClientConfig :=
  { id := "A", dependencies := "", address := DEFAULT_ADDRESS,
    port := DEFAULT_PORT, log_file := "-" }

/-- Witness for C3: with a valid local config, a socket makes `pre-dump`
exit 0 and a non-socket file makes it panic. -/
theorem pre_dump_capture_socket_witness :
    hook_main envSocketOk ACTION_PRE_DUMP = .exited 0 ∧
    ∃ msg, hook_main envSocketBad ACTION_PRE_DUMP = .panicked msg :=
  ⟨(pre_dump_capture_socket envSocketOk cfgIdA rfl rfl).1 rfl,
   (pre_dump_capture_socket envSocketBad cfgIdA rfl rfl).2 rfl⟩

/-- C5 counterexample: a restore-side action with a valid per-checkpoint
config in the images directory fails when the global `/etc/criu` config file
is absent — the global file is demanded before the local one is read. -/
theorem restore_without_global_fails :
    load_config_file
      { localConfig := some [("id", "A"), ("dependencies", "B")], globalConfig := none,
        initPid := none, cgroupLines := none, imagesDirSet := true, captureSocket := none }
      ACTION_PRE_RESTORE = .error "Global config file does not exist" := rfl

/-- C5 (amended): a dump-side action loads from a valid local config alone
(no global file needed); a restore-side action loads the id and dependencies
from the local config only when the global config is also present, and fails
with the global-config error when the global file is absent, regardless of
the local file. -/
theorem load_config_file_locations (env : HookEnv) (action : String) :
    (∀ m id, is_dump_action action = true → env.localConfig = some m →
      lookupStr m "id" = some id →
      load_config_file env action = .ok
        { id := id,
          dependencies := (lookupStr m "dependencies").getD "",
          address := (lookupStr m "address").getD DEFAULT_ADDRESS,
          port := (lookupStr m "port").getD DEFAULT_PORT,
          log_file := (lookupStr m "log-file").getD "-" }) ∧
    (∀ g m id, is_restore_action action = true → env.globalConfig = some g →
      env.localConfig = some m → lookupStr m "id" = some id →
      load_config_file env action = .ok
        { id := id,
          dependencies := (lookupStr m "dependencies").getD "",
          address := g.address.getD DEFAULT_ADDRESS,
          port := g.port.getD DEFAULT_PORT,
          log_file := g.log_file.getD "-" }) ∧
    (is_restore_action action = true → env.globalConfig = none →
      load_config_file env action = .error "Global config file does not exist") := by
  refine ⟨?_, ?_, ?_⟩
  · intro m id hd hlc hid
    simp [load_config_file, hlc, hd, hid]
  · intro g m id hr hg hlc hid
    have hnd : is_dump_action action = false := by
      cases hdv : is_dump_action action with
      | false => rfl
      | true => exact absurd ⟨hdv, hr⟩ (not_dump_and_restore action)
    simp [load_config_file, hlc, hnd, hg, hid]
  · intro hr hg
    have hnd : is_dump_action action = false := by
      cases hdv : is_dump_action action with
      | false => rfl
      | true => exact absurd ⟨hdv, hr⟩ (not_dump_and_restore action)
    simp [load_config_file, hg, hnd]

/-- The central config of the C5 witness environment. -/
def centralAP : CentralConfig :=
  { address := some "10.0.0.1", port := some "9000", log_file := none, dependencies := none }

/-- Witness environment for C5: both config files present. -/
def envBothConfigs : HookEnv :=
  { localConfig := some [("id", "A"), ("dependencies", "B")],
    globalConfig := some centralAP,
    initPid := none, cgroupLines := none, imagesDirSet := true, captureSocket := none }

/-- Witness environment for C5: only the local config present. -/
def envLocalOnly : HookEnv :=
  { localConfig := some [("id", "A"), ("dependencies", "B")], globalConfig := none,
    initPid := none, cgroupLines := none, imagesDirSet := true, captureSocket := none }

/-- Witness for C5: the three parts of the amended statement at concrete
environments — `pre-dump` with a local config alone, `pre-restore` with both
files, and `pre-restore` with the global file absent. -/
theorem load_config_file_locations_witness :
    load_config_file envLocalOnly ACTION_PRE_DUMP = .ok
      { id := "A", dependencies := "B", address := DEFAULT_ADDRESS,
        port := DEFAULT_PORT, log_file := "-" } ∧
    load_config_file envBothConfigs ACTION_PRE_RESTORE = .ok
      { id := "A", dependencies := "B", address := "10.0.0.1",
        port := "9000", log_file := "-" } ∧
    load_config_file envLocalOnly ACTION_PRE_RESTORE =
      .error "Global config file does not exist" :=
  ⟨(load_config_file_locations envLocalOnly ACTION_PRE_DUMP).1
      [("id", "A"), ("dependencies", "B")] "A" rfl rfl rfl,
   (load_config_file_locations envBothConfigs ACTION_PRE_RESTORE).2.1
      centralAP [("id", "A"), ("dependencies", "B")] "A" rfl rfl rfl rfl,
   (load_config_file_locations envLocalOnly ACTION_PRE_RESTORE).2.2 rfl rfl⟩

/-- The environment of the C6 counterexample: no config file exists at either
location. -/
def envNoConfigs : HookEnv :=
  { localConfig := none, globalConfig := none, initPid := none,
    cgroupLines := none, imagesDirSet := true, captureSocket := none }

/-- C6 counterexample: the unrecognized action `foo` does not exit 0 when the
global config file is absent — the configuration is loaded before the
unknown-action check, so the hook panics instead of being a no-op. -/
theorem unknown_action_not_always_noop :
    is_dump_action "foo" = false ∧ is_restore_action "foo" = false ∧
    hook_main envNoConfigs "foo" = .panicked "Global config file does not exist" ∧
    hook_main envNoConfigs "foo" ≠ .exited 0 := by
  refine ⟨rfl, rfl, rfl, ?_⟩
  intro h
  rw [show hook_main envNoConfigs "foo" = .panicked "Global config file does not exist"
    from rfl] at h
  exact HookOutcome.noConfusion h

/-- C6 (amended): an action that is neither dump-side nor restore-side makes
the hook exit 0 without contacting the coordinator, provided the
configuration loading that precedes the check succeeds; when that loading
fails (for example because a config file is missing) the hook panics
instead. -/
theorem unknown_action_exits_zero (env : HookEnv) (action : String) (cfg : ClientConfig)
    (hdir : env.imagesDirSet = true)
    (hnd : is_dump_action action = false) (hnr : is_restore_action action = false)
    (hload : load_config_file env action = .ok cfg) :
    hook_main env action = .exited 0 := by
  have hps : (action == ACTION_PRE_STREAM) = false := by
    rw [beq_eq_false_iff_ne]
    intro h
    rw [h] at hnd
    exact absurd hnd (by decide)
  have hpd : (action == ACTION_PRE_DUMP) = false := by
    rw [beq_eq_false_iff_ne]
    intro h
    rw [h] at hnd
    exact absurd hnd (by decide)
  simp [hook_main, hdir, hload, hps, hpd, hnd, hnr]

/-- The environment of the C6 witness: both config files present, so loading
succeeds for any action. -/
def envForUnknown : HookEnv :=
  { localConfig := some [("id", "A")], globalConfig := some centralAP,
    initPid := none, cgroupLines := none, imagesDirSet := true, captureSocket := none }

/-- Witness for C6: the unrecognized action `foo` exits 0 when the
configuration loads. -/
theorem unknown_action_exits_zero_witness :
    hook_main envForUnknown "foo" = .exited 0 :=
  unknown_action_exits_zero envForUnknown "foo"
    { id := "A", dependencies := "", address := "10.0.0.1", port := "9000", log_file := "-" }
    rfl rfl rfl rfl
